import Mathlib

/-!
Verification of the cross-boundary proxy / RPC protocol of the
rusqlite-experiment SPA (controller ↔ web-worker ↔ wasm module).

Shallow embedding of:
- `src/spa/worker/handle-manager.ts` (`HandleManager`)
- `src/spa/worker/wasm-worker.ts` (`serializeError`, `serializeTodoList`,
  `handleMessage`)
- `src/spa/worker/proxy.ts` (`handleWorkerMessage` error decoding, the
  `TodoList` / `Item` proxy facade)

JavaScript `Map` / plain-`Record` state is modelled as association lists,
thrown exceptions as `Except`, and the opaque wasm module (the `../ffi`
import, which exists outside the worker sources) as an abstract structure
of operations, matching the spec's treatment of the native module as an
opaque capability.
-/

namespace RusqliteSpa

/-! ## Error values and the error codec (`wasm-worker.ts` lines 27-103) -/

/-- Model of the JavaScript failure values relevant to the worker's error
codec: a standard `Error` (message, stack, optional `cause`), a Rust-style
structured error object carrying `msg`/`source` fields, and a plain string.
(The `Map` branch of `serializeError` produces the same output shape as the
`msg`/`source` branch; other object shapes are not produced by the ffi.) -/
inductive ErrVal where
  | error (message : String) (stack : Option String) (cause : Option ErrVal)
  | rustErr (msg : String) (source : Option ErrVal)
  | str (s : String)
deriving Repr

/-- JavaScript truthiness of a failure value: objects are always truthy,
a string is truthy iff nonempty. Used for the `err.cause ? … : undefined`
and `rustErr.source ? … : undefined` conditionals in `serializeError`. -/
def ErrVal.truthy : ErrVal → Bool
  | .error _ _ _ => true
  | .rustErr _ _ => true
  | .str s => !(s = "")

/-- The `SerializedError` wire shape of `types.ts`: `message`, optional
`stack`, optional nested `cause`. -/
inductive SerializedError where
  | node (message : String) (stack : Option String) (cause : Option SerializedError)
deriving Repr

/-- Accessor for the `message` field. -/
def SerializedError.message : SerializedError → String
  | .node m _ _ => m

/-- Accessor for the `stack` field. -/
def SerializedError.stack : SerializedError → Option String
  | .node _ s _ => s

/-- Accessor for the `cause` field. -/
def SerializedError.cause : SerializedError → Option SerializedError
  | .node _ _ c => c

/-- The worker's `serializeError` (`wasm-worker.ts` 27-103), restricted to
the modelled value universe. `Error` values keep message/stack and recurse
into a truthy `cause`; `msg`/`source` objects map to message/cause; a string
falls through to the `String(err)` fallback, with the `[object ` guard. -/
def serializeError : ErrVal → SerializedError
  | .error message stack cause =>
    .node message stack
      (match cause with
       | some c => if c.truthy then some (serializeError c) else none
       | none => none)
  | .rustErr msg source =>
    .node msg none
      (match source with
       | some c => if c.truthy then some (serializeError c) else none
       | none => none)
  | .str s =>
    if s.startsWith "[object " then
      .node ("Unknown error type: string, constructor: String") none none
    else
      .node s none none

/-- The ordered list of messages of a serialized error chain, outermost
first (one entry per chain node). -/
def SerializedError.nodes : SerializedError → List String
  | .node m _ none => [m]
  | .node m _ (some c) => m :: c.nodes

/-! ## Controller-side error decoding (`proxy.ts` lines 53-99) -/

/-- The `while (current && current.message)` loop of `buildErrorChain`:
walk the `cause` links, collecting messages, stopping at a missing node or
a falsy (empty) message. -/
def causeLoop : Option SerializedError → List String
  | none => []
  | some (.node m _ c) => if m = "" then [] else m :: causeLoop c

/-- `buildErrorChain` from `handleWorkerMessage`: the short message (first
chain entry) paired with the full ordered chain; a missing error or falsy
message yields the `Unknown error` placeholder. -/
def buildErrorChain : Option SerializedError → String × List String
  | none => ("Unknown error", ["Unknown error"])
  | some e =>
    if e.message = "" then ("Unknown error", ["Unknown error"])
    else (e.message, e.message :: causeLoop e.cause)

/-- The controller-side rejection value built by `handleWorkerMessage`: an
`Error` whose `message` is the chain's first entry, whose `errorChain`
property holds the full ordered chain, and whose `stack` is overwritten
only by a truthy serialized stack. -/
structure DecodedError where
  message : String
  errorChain : List String
  stack : Option String
deriving Repr

/-- The failure branch of `handleWorkerMessage` (`proxy.ts` 64-98),
reconstructing the rejection `Error` from a failure `Response`. A `none`
stack means the freshly constructed `Error`'s own runtime stack is kept. -/
def decodeFailure (err : Option SerializedError) : DecodedError :=
  let c := buildErrorChain err
  { message := c.1
    errorChain := c.2
    stack :=
      match err with
      | some e =>
        match e.stack with
        | some s => if s = "" then none else some s
        | none => none
      | none => none }

/-! ## Association-list model of JavaScript `Map` / numeric-keyed records -/

/-- Set a key in a numeric-keyed record / `Map`: replace the existing
binding if the key is present, otherwise append it. -/
def recordSet {A : Type} : List (Nat × A) → Nat → A → List (Nat × A)
  | [], k, v => [(k, v)]
  | (k', v') :: rest, k, v =>
    if k' = k then (k, v) :: rest else (k', v') :: recordSet rest k v

/-- Look a key up in a numeric-keyed record / `Map`. -/
def assocGet {A : Type} : List (Nat × A) → Nat → Option A
  | [], _ => none
  | (k', v') :: rest, k => if k' = k then some v' else assocGet rest k

/-- Remove a key from a `Map`. -/
def assocDelete {A : Type} (l : List (Nat × A)) (k : Nat) : List (Nat × A) :=
  l.filter (fun p => p.1 ≠ k)

/-- `Map.has`. -/
def assocHas {A : Type} (l : List (Nat × A)) (k : Nat) : Bool :=
  (assocGet l k).isSome

/-- The keys of the record. -/
def assocKeys {A : Type} (l : List (Nat × A)) : List Nat :=
  l.map Prod.fst

/-! ## Handle table (`handle-manager.ts`) -/

/-- The `new Error('Invalid handle: ' + handle)` thrown by
`HandleManager.get`. The runtime stack string is unspecified; modelled as
`none`. -/
def invalidHandleErr (h : Nat) : ErrVal :=
  ErrVal.error ("Invalid handle: " ++ toString h) none none

/-- `HandleManager<T>`: a monotone counter starting at 1 plus a
`Map<Handle, T>` of live instances. -/
structure HandleManager (T : Type) where
  nextHandle : Nat := 1
  instances : List (Nat × T) := []

/-- A freshly constructed `HandleManager` (`nextHandle = 1`, empty map). -/
def HandleManager.fresh {T : Type} : HandleManager T := {}

/-- `create(instance)`: return the current `nextHandle` (post-incrementing
it) and store the instance under it. -/
def HandleManager.create {T : Type} (m : HandleManager T) (instance' : T) :
    Nat × HandleManager T :=
  (m.nextHandle,
    { nextHandle := m.nextHandle + 1
      instances := recordSet m.instances m.nextHandle instance' })

/-- `get(handle)`: look the handle up; `if (!instance) throw` — a missing
binding, or a stored instance that is JavaScript-falsy according to `tr`,
raises the invalid-handle error. -/
def HandleManager.get {T : Type} (tr : T → Bool) (m : HandleManager T) (h : Nat) :
    Except ErrVal T :=
  match assocGet m.instances h with
  | none => .error (invalidHandleErr h)
  | some v => if tr v then .ok v else .error (invalidHandleErr h)

/-- `has(handle)`. -/
def HandleManager.has {T : Type} (m : HandleManager T) (h : Nat) : Bool :=
  assocHas m.instances h

/-- `delete(handle)`: returns whether the handle existed, and the table
without it. -/
def HandleManager.delete {T : Type} (m : HandleManager T) (h : Nat) :
    Bool × HandleManager T :=
  (assocHas m.instances h, { m with instances := assocDelete m.instances h })

/-- `size()`. -/
def HandleManager.size {T : Type} (m : HandleManager T) : Nat :=
  m.instances.length

/-- `clear()`. -/
def HandleManager.clear {T : Type} (_ : HandleManager T) : HandleManager T :=
  { nextHandle := 1, instances := [] }

/-- Overwrite the instance stored under a live handle. This is not a
`HandleManager` method: it models the dispatcher's in-place mutation of a
stored wasm object (the JS `Map` keeps pointing at the mutated object). -/
def HandleManager.setInstance {T : Type} (m : HandleManager T) (h : Nat) (x : T) :
    HandleManager T :=
  { m with instances := recordSet m.instances h x }

/-- A call in a client's interaction with a `HandleManager`: either
`create` with some instance or `delete` of some handle. -/
inductive HMOp (T : Type) where
  | create (x : T)
  | delete (h : Nat)

/-- Apply one call, keeping only the resulting table. -/
def applyOp {T : Type} (m : HandleManager T) : HMOp T → HandleManager T
  | .create x => (m.create x).2
  | .delete h => (m.delete h).2

/-- Run a sequence of calls. -/
def runOps {T : Type} (m : HandleManager T) : List (HMOp T) → HandleManager T
  | [] => m
  | op :: rest => runOps (applyOp m op) rest

/-- The handle values returned by the `create` calls of a sequence, in
call order. -/
def createdHandles {T : Type} (m : HandleManager T) : List (HMOp T) → List Nat
  | [] => []
  | .create x :: rest => (m.create x).1 :: createdHandles (m.create x).2 rest
  | .delete h :: rest => createdHandles (m.delete h).2 rest

/-- Number of `create` calls in a sequence. -/
def countCreates {T : Type} : List (HMOp T) → Nat
  | [] => 0
  | .create _ :: rest => countCreates rest + 1
  | .delete _ :: rest => countCreates rest

/-- Table invariant: every stored key is below the allocation counter. -/
def HMinv {T : Type} (m : HandleManager T) : Prop :=
  ∀ k v, assocGet m.instances k = some v → k < m.nextHandle

/-! ## Worker-side `TodoList` instances and the snapshot codec
(`wasm-worker.ts` lines 169-198) -/

/-- The `SerializedItem` wire shape of `types.ts`. -/
structure SerializedItem where
  id : Nat
  listId : Nat
  description : String
  isCompleted : Bool
  createdAt : Nat
deriving DecidableEq, Repr

/-- The `SerializedTodoList` wire shape of `types.ts`; `items` is the
numeric-keyed record `Record<number, SerializedItem>`. -/
structure SerializedTodoList where
  id : Nat
  title : String
  createdAt : Nat
  itemIds : List Nat
  items : List (Nat × SerializedItem)
deriving DecidableEq, Repr

/-- A wasm `Item` instance as observed by `serializeTodoList`: each getter
is a wasm call that may throw. -/
structure WItem where
  id : Except ErrVal Nat
  list_id : Except ErrVal Nat
  description : Except ErrVal String
  is_completed : Except ErrVal Bool
  created_at : Except ErrVal Nat

/-- A wasm `TodoList` instance as observed by `serializeTodoList`: scalar
getters plus `item_ids()` (a `Uint32Array`, so every element is below
`2^32`) and the child lookup `item(itemId)`. Each getter may throw. -/
structure WTodoList where
  id : Except ErrVal Nat
  title : Except ErrVal String
  created_at : Except ErrVal Nat
  item_ids : Except ErrVal (List Nat)
  item : Nat → Option WItem

/-- Copy one child's fields, in the order the object literal in
`serializeTodoList` evaluates them (id, listId, description, isCompleted,
createdAt); the first throwing getter aborts the copy. -/
def readItem (it : WItem) : Except ErrVal SerializedItem :=
  match it.id with
  | .error e => .error e
  | .ok i =>
  match it.list_id with
  | .error e => .error e
  | .ok li =>
  match it.description with
  | .error e => .error e
  | .ok d =>
  match it.is_completed with
  | .error e => .error e
  | .ok c =>
  match it.created_at with
  | .error e => .error e
  | .ok ca =>
    .ok { id := i, listId := li, description := d, isCompleted := c, createdAt := ca }

/-- The `for (const itemId of itemIds)` loop of `serializeTodoList`,
threading the `items` record and the list of child handles freed so far
(`item.free()` runs right after a successful copy; there is no
`try`/`finally`, so a throwing copy leaves its child unfreed and aborts). -/
def itemsLoop (item : Nat → Option WItem) :
    List Nat → List (Nat × SerializedItem) → List Nat →
    Except ErrVal (List (Nat × SerializedItem)) × List Nat
  | [], acc, freed => (.ok acc, freed)
  | iid :: rest, acc, freed =>
    match item iid with
    | none => itemsLoop item rest acc freed
    | some it =>
      match readItem it with
      | .error e => (.error e, freed)
      | .ok s => itemsLoop item rest (recordSet acc iid s) (freed ++ [iid])

/-- `serializeTodoList` (`wasm-worker.ts` 169-198): read the scalar
getters, materialize `itemIds`, copy each child, and assemble the
snapshot. Returns the result together with the list of child item ids
whose transient wasm objects were freed, in free order. -/
def serializeTodoList (list : WTodoList) :
    Except ErrVal SerializedTodoList × List Nat :=
  match list.id with
  | .error e => (.error e, [])
  | .ok idv =>
  match list.title with
  | .error e => (.error e, [])
  | .ok titlev =>
  match list.created_at with
  | .error e => (.error e, [])
  | .ok cav =>
  match list.item_ids with
  | .error e => (.error e, [])
  | .ok itemIds =>
  match itemsLoop list.item itemIds [] [] with
  | (.error e, freed) => (.error e, freed)
  | (.ok items, freed) =>
    (.ok { id := idv, title := titlev, createdAt := cav, itemIds := itemIds, items := items },
      freed)

/-- A child slot is unproblematic for serialization: either absent or
fully readable. -/
def childOk (item : Nat → Option WItem) (j : Nat) : Prop :=
  ∀ jt, item j = some jt → ∃ s, readItem jt = .ok s

/-! ## Worker dispatcher (`wasm-worker.ts` `handleMessage`, lines 203-477) -/

/-- The `new Error('WASM not initialized')` thrown by every non-`init`
case before anything else. -/
def notInitErr : ErrVal := ErrVal.error "WASM not initialized" none none

/-- The `new Error('Unknown message type: ' + type)` of the `default`
case. -/
def unknownErr (t : String) : ErrVal :=
  ErrVal.error ("Unknown message type: " ++ t) none none

/-- Observable dispatcher events, for stating what happened before a
failure: a handle-table resolution attempt, or an invocation of a named
native (wasm) operation. -/
inductive Ev where
  | resolve (table : String) (h : Nat)
  | native (name : String)
deriving DecidableEq, Repr

/-- Whether an event is a native-module invocation. -/
def Ev.isNative : Ev → Bool
  | .resolve _ _ => false
  | .native _ => true

/-- Which handle table a request field refers to. -/
inductive HTable where
  | database
  | todoList
deriving DecidableEq, Repr

/-- The opaque native module (`../ffi`): one operation per wasm entry
point the dispatcher calls. Mutating `TodoList` operations return the
mutated instance (JavaScript mutates the stored object in place). `DB` is
the opaque `Database` instance type. -/
structure Native (DB : Type) where
  wasmInit : String → Except ErrVal Unit
  connect : String → Except ErrVal DB
  decryptDatabase : DB → String → Except ErrVal Unit
  isEncrypted : DB → Except ErrVal Bool
  setKey : DB → String → Except ErrVal Unit
  dbName : DB → Except ErrVal String
  dbExport : DB → Except ErrVal (List Nat)
  dbDelete : DB → Except ErrVal Unit
  applySchema : DB → Except ErrVal Unit
  listAll : DB → Except ErrVal (List (Nat × String))
  todoNew : DB → String → Except ErrVal WTodoList
  todoLoad : DB → Nat → Except ErrVal WTodoList
  todoDelete : DB → Nat → Except ErrVal Bool
  save : WTodoList → DB → Except ErrVal WTodoList
  addItem : WTodoList → DB → String → Except ErrVal (Nat × WTodoList)
  removeItem : WTodoList → DB → Nat → Except ErrVal (Bool × WTodoList)
  setItemDescription : WTodoList → Nat → String → Except ErrVal (Option Bool × WTodoList)
  setItemCompleted : WTodoList → Nat → Bool → Except ErrVal (Option Bool × WTodoList)
  freeList : WTodoList → Except ErrVal Unit

/-- A typed `WorkerRequest`, one constructor per `request.type` the
dispatcher recognizes (payload shapes from `types.ts`), plus `unknown` for
an unrecognized type string. -/
inductive Req where
  | init (wasmPath : String)
  | dbConnect (name : String)
  | dbDecrypt (handle : Nat) (passphrase : String)
  | dbIsEncrypted (handle : Nat)
  | dbSetKey (handle : Nat) (passphrase : String)
  | dbName (handle : Nat)
  | dbReadFile (handle : Nat)
  | dbDelete (handle : Nat)
  | applySchema (dbHandle : Nat)
  | listAll (dbHandle : Nat)
  | listNew (dbHandle : Nat) (title : String)
  | listLoad (dbHandle : Nat) (id : Nat)
  | listDelete (dbHandle : Nat) (id : Nat)
  | listSave (handle : Nat) (dbHandle : Nat)
  | addItem (handle : Nat) (dbHandle : Nat) (description : String)
  | removeItem (handle : Nat) (dbHandle : Nat) (itemId : Nat)
  | setItemDescription (handle : Nat) (itemId : Nat) (description : String)
  | setItemCompleted (handle : Nat) (itemId : Nat) (isCompleted : Bool)
  | listFree (handle : Nat)
  | unknown (type : String)

/-- The wire `type` string of a request. -/
def Req.type : Req → String
  | .init _ => "init"
  | .dbConnect _ => "Database.connect"
  | .dbDecrypt _ _ => "Database.decrypt_database"
  | .dbIsEncrypted _ => "Database.is_encrypted"
  | .dbSetKey _ _ => "Database.set_key"
  | .dbName _ => "Database.name"
  | .dbReadFile _ => "Database.readDatabaseFile"
  | .dbDelete _ => "Database.delete"
  | .applySchema _ => "apply_schema"
  | .listAll _ => "TodoList.list_all"
  | .listNew _ _ => "TodoList.new"
  | .listLoad _ _ => "TodoList.load"
  | .listDelete _ _ => "TodoList.delete"
  | .listSave _ _ => "TodoList.save"
  | .addItem _ _ _ => "TodoList.add_item"
  | .removeItem _ _ _ => "TodoList.remove_item"
  | .setItemDescription _ _ _ => "TodoList.set_item_description"
  | .setItemCompleted _ _ _ => "TodoList.set_item_completed"
  | .listFree _ => "TodoList.free"
  | .unknown t => t

/-- The `request.type` strings the dispatcher's `switch` recognizes. -/
def knownTypes : List String :=
  ["init", "Database.connect", "Database.decrypt_database", "Database.is_encrypted",
   "Database.set_key", "Database.name", "Database.readDatabaseFile", "Database.delete",
   "apply_schema", "TodoList.list_all", "TodoList.new", "TodoList.load", "TodoList.delete",
   "TodoList.save", "TodoList.add_item", "TodoList.remove_item",
   "TodoList.set_item_description", "TodoList.set_item_completed", "TodoList.free"]

/-- A `Req.unknown` constructor only stands for type strings outside the
recognized set (a recognized string is represented by its own
constructor). -/
def Req.wellFormed : Req → Prop
  | .unknown t => ¬ t ∈ knownTypes
  | _ => True

/-- The handles a request's payload carries, with the table each belongs
to, in the order the dispatcher resolves them. -/
def Req.refHandles : Req → List (HTable × Nat)
  | .init _ => []
  | .dbConnect _ => []
  | .dbDecrypt h _ => [(.database, h)]
  | .dbIsEncrypted h => [(.database, h)]
  | .dbSetKey h _ => [(.database, h)]
  | .dbName h => [(.database, h)]
  | .dbReadFile h => [(.database, h)]
  | .dbDelete h => [(.database, h)]
  | .applySchema h => [(.database, h)]
  | .listAll h => [(.database, h)]
  | .listNew h _ => [(.database, h)]
  | .listLoad h _ => [(.database, h)]
  | .listDelete h _ => [(.database, h)]
  | .listSave h dbh => [(.todoList, h), (.database, dbh)]
  | .addItem h dbh _ => [(.todoList, h), (.database, dbh)]
  | .removeItem h dbh _ => [(.todoList, h), (.database, dbh)]
  | .setItemDescription h _ _ => [(.todoList, h)]
  | .setItemCompleted h _ _ => [(.todoList, h)]
  | .listFree h => [(.todoList, h)]
  | .unknown _ => []

/-- Success payloads of the recognized operations (`types.ts` response
shapes). -/
inductive PVal where
  | handle (h : Nat)
  | boolVal (b : Bool)
  | strVal (s : String)
  | bytes (bs : List Nat)
  | pairs (l : List (Nat × String))
  | handleSnap (h : Nat) (snapshot : SerializedTodoList)
  | snap (snapshot : SerializedTodoList)
  | itemIdSnap (itemId : Nat) (snapshot : SerializedTodoList)
  | okSnap (ok : Bool) (snapshot : SerializedTodoList)
  | resultSnap (result : Option Bool) (snapshot : SerializedTodoList)
deriving DecidableEq, Repr

/-- The `WorkerResponse` wire shape: `payload` is `none` when the worker
answers with `payload: undefined`. -/
structure Resp where
  id : String
  success : Bool
  payload : Option PVal
  error : Option SerializedError
deriving Repr

/-- A success response. -/
def okResp (rid : String) (p : Option PVal) : Resp :=
  { id := rid, success := true, payload := p, error := none }

/-- A failure response: the top-level `catch` converts the thrown value
via `serializeError`. -/
def errResp (rid : String) (e : ErrVal) : Resp :=
  { id := rid, success := false, payload := none, error := some (serializeError e) }

/-- The `message` of a response's error, when present. -/
def errMsg (r : Resp) : Option String :=
  r.error.map SerializedError.message

/-- Worker-global state: the `initialized` flag and the two handle
tables. -/
structure WorkerState (DB : Type) where
  initialized : Bool
  dbH : HandleManager DB
  listH : HandleManager WTodoList

/-- Truthiness of a stored wasm instance: class instances are JavaScript
objects, hence always truthy. -/
def objTruthy {T : Type} : T → Bool := fun _ => true

/-- `true` iff the computation succeeded. -/
def isOkE {α : Type} : Except ErrVal α → Bool
  | .ok _ => true
  | .error _ => false

/-- Whether a referenced handle currently resolves in its table. -/
def resolves {DB : Type} (st : WorkerState DB) : HTable × Nat → Bool
  | (.database, h) => isOkE (st.dbH.get objTruthy h)
  | (.todoList, h) => isOkE (st.listH.get objTruthy h)

/-- The body of `handleMessage`'s `try` block: one arm per `switch` case.
Every non-`init` case first checks the `initialized` flag, then resolves
the payload's handles, then invokes the native operation, then (for
state-affecting `TodoList` operations) stores the mutated instance and
serializes a fresh snapshot. Returns the thrown value or the success
payload, the worker state as left behind, and the ordered event trace. -/
def step {DB : Type} (native : Native DB) (st : WorkerState DB) :
    Req → Except ErrVal (Option PVal) × WorkerState DB × List Ev
  | .init wasmPath =>
    match native.wasmInit wasmPath with
    | .error e => (.error e, st, [.native "wasm_init"])
    | .ok _ => (.ok none, { st with initialized := true }, [.native "wasm_init"])
  | .dbConnect name =>
    if st.initialized then
      match native.connect name with
      | .error e => (.error e, st, [.native "Database.connect"])
      | .ok db =>
        let r := st.dbH.create db
        (.ok (some (.handle r.1)), { st with dbH := r.2 }, [.native "Database.connect"])
    else (.error notInitErr, st, [])
  | .dbDecrypt h passphrase =>
    if st.initialized then
      match st.dbH.get objTruthy h with
      | .error e => (.error e, st, [.resolve "database" h])
      | .ok db =>
        match native.decryptDatabase db passphrase with
        | .error e => (.error e, st, [.resolve "database" h, .native "Database.decrypt_database"])
        | .ok _ => (.ok none, st, [.resolve "database" h, .native "Database.decrypt_database"])
    else (.error notInitErr, st, [])
  | .dbIsEncrypted h =>
    if st.initialized then
      match st.dbH.get objTruthy h with
      | .error e => (.error e, st, [.resolve "database" h])
      | .ok db =>
        match native.isEncrypted db with
        | .error e => (.error e, st, [.resolve "database" h, .native "Database.is_encrypted"])
        | .ok b => (.ok (some (.boolVal b)), st, [.resolve "database" h, .native "Database.is_encrypted"])
    else (.error notInitErr, st, [])
  | .dbSetKey h passphrase =>
    if st.initialized then
      match st.dbH.get objTruthy h with
      | .error e => (.error e, st, [.resolve "database" h])
      | .ok db =>
        match native.setKey db passphrase with
        | .error e => (.error e, st, [.resolve "database" h, .native "Database.set_key"])
        | .ok _ => (.ok none, st, [.resolve "database" h, .native "Database.set_key"])
    else (.error notInitErr, st, [])
  | .dbName h =>
    if st.initialized then
      match st.dbH.get objTruthy h with
      | .error e => (.error e, st, [.resolve "database" h])
      | .ok db =>
        match native.dbName db with
        | .error e => (.error e, st, [.resolve "database" h, .native "Database.name"])
        | .ok s => (.ok (some (.strVal s)), st, [.resolve "database" h, .native "Database.name"])
    else (.error notInitErr, st, [])
  | .dbReadFile h =>
    if st.initialized then
      match st.dbH.get objTruthy h with
      | .error e => (.error e, st, [.resolve "database" h])
      | .ok db =>
        match native.dbExport db with
        | .error e => (.error e, st, [.resolve "database" h, .native "Database.export"])
        | .ok bs => (.ok (some (.bytes bs)), st, [.resolve "database" h, .native "Database.export"])
    else (.error notInitErr, st, [])
  | .dbDelete h =>
    if st.initialized then
      match st.dbH.get objTruthy h with
      | .error e => (.error e, st, [.resolve "database" h])
      | .ok db =>
        match native.dbDelete db with
        | .error e => (.error e, st, [.resolve "database" h, .native "Database.delete"])
        | .ok _ => (.ok none, st, [.resolve "database" h, .native "Database.delete"])
    else (.error notInitErr, st, [])
  | .applySchema h =>
    if st.initialized then
      match st.dbH.get objTruthy h with
      | .error e => (.error e, st, [.resolve "database" h])
      | .ok db =>
        match native.applySchema db with
        | .error e => (.error e, st, [.resolve "database" h, .native "apply_schema"])
        | .ok _ => (.ok none, st, [.resolve "database" h, .native "apply_schema"])
    else (.error notInitErr, st, [])
  | .listAll h =>
    if st.initialized then
      match st.dbH.get objTruthy h with
      | .error e => (.error e, st, [.resolve "database" h])
      | .ok db =>
        match native.listAll db with
        | .error e => (.error e, st, [.resolve "database" h, .native "TodoList.list_all"])
        | .ok l => (.ok (some (.pairs l)), st, [.resolve "database" h, .native "TodoList.list_all"])
    else (.error notInitErr, st, [])
  | .listNew h title =>
    if st.initialized then
      match st.dbH.get objTruthy h with
      | .error e => (.error e, st, [.resolve "database" h])
      | .ok db =>
        match native.todoNew db title with
        | .error e => (.error e, st, [.resolve "database" h, .native "TodoList.new"])
        | .ok list =>
          let r := st.listH.create list
          let st2 := { st with listH := r.2 }
          match (serializeTodoList list).1 with
          | .error e => (.error e, st2, [.resolve "database" h, .native "TodoList.new"])
          | .ok snap =>
            (.ok (some (.handleSnap r.1 snap)), st2, [.resolve "database" h, .native "TodoList.new"])
    else (.error notInitErr, st, [])
  | .listLoad h idv =>
    if st.initialized then
      match st.dbH.get objTruthy h with
      | .error e => (.error e, st, [.resolve "database" h])
      | .ok db =>
        match native.todoLoad db idv with
        | .error e => (.error e, st, [.resolve "database" h, .native "TodoList.load"])
        | .ok list =>
          let r := st.listH.create list
          let st2 := { st with listH := r.2 }
          match (serializeTodoList list).1 with
          | .error e => (.error e, st2, [.resolve "database" h, .native "TodoList.load"])
          | .ok snap =>
            (.ok (some (.handleSnap r.1 snap)), st2, [.resolve "database" h, .native "TodoList.load"])
    else (.error notInitErr, st, [])
  | .listDelete h idv =>
    if st.initialized then
      match st.dbH.get objTruthy h with
      | .error e => (.error e, st, [.resolve "database" h])
      | .ok db =>
        match native.todoDelete db idv with
        | .error e => (.error e, st, [.resolve "database" h, .native "TodoList.delete"])
        | .ok ok => (.ok (some (.boolVal ok)), st, [.resolve "database" h, .native "TodoList.delete"])
    else (.error notInitErr, st, [])
  | .listSave h dbh =>
    if st.initialized then
      match st.listH.get objTruthy h with
      | .error e => (.error e, st, [.resolve "todoList" h])
      | .ok list =>
        match st.dbH.get objTruthy dbh with
        | .error e => (.error e, st, [.resolve "todoList" h, .resolve "database" dbh])
        | .ok db =>
          match native.save list db with
          | .error e =>
            (.error e, st, [.resolve "todoList" h, .resolve "database" dbh, .native "TodoList.save"])
          | .ok list2 =>
            let st2 := { st with listH := st.listH.setInstance h list2 }
            match (serializeTodoList list2).1 with
            | .error e =>
              (.error e, st2, [.resolve "todoList" h, .resolve "database" dbh, .native "TodoList.save"])
            | .ok snap =>
              (.ok (some (.snap snap)), st2,
                [.resolve "todoList" h, .resolve "database" dbh, .native "TodoList.save"])
    else (.error notInitErr, st, [])
  | .addItem h dbh description =>
    if st.initialized then
      match st.listH.get objTruthy h with
      | .error e => (.error e, st, [.resolve "todoList" h])
      | .ok list =>
        match st.dbH.get objTruthy dbh with
        | .error e => (.error e, st, [.resolve "todoList" h, .resolve "database" dbh])
        | .ok db =>
          match native.addItem list db description with
          | .error e =>
            (.error e, st, [.resolve "todoList" h, .resolve "database" dbh, .native "TodoList.add_item"])
          | .ok r =>
            let st2 := { st with listH := st.listH.setInstance h r.2 }
            match (serializeTodoList r.2).1 with
            | .error e =>
              (.error e, st2, [.resolve "todoList" h, .resolve "database" dbh, .native "TodoList.add_item"])
            | .ok snap =>
              (.ok (some (.itemIdSnap r.1 snap)), st2,
                [.resolve "todoList" h, .resolve "database" dbh, .native "TodoList.add_item"])
    else (.error notInitErr, st, [])
  | .removeItem h dbh itemId =>
    if st.initialized then
      match st.listH.get objTruthy h with
      | .error e => (.error e, st, [.resolve "todoList" h])
      | .ok list =>
        match st.dbH.get objTruthy dbh with
        | .error e => (.error e, st, [.resolve "todoList" h, .resolve "database" dbh])
        | .ok db =>
          match native.removeItem list db itemId with
          | .error e =>
            (.error e, st, [.resolve "todoList" h, .resolve "database" dbh, .native "TodoList.remove_item"])
          | .ok r =>
            let st2 := { st with listH := st.listH.setInstance h r.2 }
            match (serializeTodoList r.2).1 with
            | .error e =>
              (.error e, st2, [.resolve "todoList" h, .resolve "database" dbh, .native "TodoList.remove_item"])
            | .ok snap =>
              (.ok (some (.okSnap r.1 snap)), st2,
                [.resolve "todoList" h, .resolve "database" dbh, .native "TodoList.remove_item"])
    else (.error notInitErr, st, [])
  | .setItemDescription h itemId description =>
    if st.initialized then
      match st.listH.get objTruthy h with
      | .error e => (.error e, st, [.resolve "todoList" h])
      | .ok list =>
        match native.setItemDescription list itemId description with
        | .error e => (.error e, st, [.resolve "todoList" h, .native "TodoList.set_item_description"])
        | .ok r =>
          let st2 := { st with listH := st.listH.setInstance h r.2 }
          match (serializeTodoList r.2).1 with
          | .error e => (.error e, st2, [.resolve "todoList" h, .native "TodoList.set_item_description"])
          | .ok snap =>
            (.ok (some (.resultSnap r.1 snap)), st2,
              [.resolve "todoList" h, .native "TodoList.set_item_description"])
    else (.error notInitErr, st, [])
  | .setItemCompleted h itemId isCompleted =>
    if st.initialized then
      match st.listH.get objTruthy h with
      | .error e => (.error e, st, [.resolve "todoList" h])
      | .ok list =>
        match native.setItemCompleted list itemId isCompleted with
        | .error e => (.error e, st, [.resolve "todoList" h, .native "TodoList.set_item_completed"])
        | .ok r =>
          let st2 := { st with listH := st.listH.setInstance h r.2 }
          match (serializeTodoList r.2).1 with
          | .error e => (.error e, st2, [.resolve "todoList" h, .native "TodoList.set_item_completed"])
          | .ok snap =>
            (.ok (some (.resultSnap r.1 snap)), st2,
              [.resolve "todoList" h, .native "TodoList.set_item_completed"])
    else (.error notInitErr, st, [])
  | .listFree h =>
    if st.initialized then
      match st.listH.get objTruthy h with
      | .error e => (.error e, st, [.resolve "todoList" h])
      | .ok list =>
        match native.freeList list with
        | .error e => (.error e, st, [.resolve "todoList" h, .native "TodoList.free"])
        | .ok _ =>
          (.ok none, { st with listH := (st.listH.delete h).2 },
            [.resolve "todoList" h, .native "TodoList.free"])
    else (.error notInitErr, st, [])
  | .unknown t => (.error (unknownErr t), st, [])

/-- `handleMessage`: run the `try` body and convert a thrown value into a
failure `Response` via `serializeError` (the single top-level `catch`).
Also exposes the final worker state and the event trace. -/
def handleMessage {DB : Type} (native : Native DB) (rid : String)
    (st : WorkerState DB) (req : Req) : Resp × WorkerState DB × List Ev :=
  match step native st req with
  | (.ok p, st', tr) => (okResp rid p, st', tr)
  | (.error e, st', tr) => (errResp rid e, st', tr)

/-! ## Controller-side proxy facade (`proxy.ts`) -/

namespace Proxy

/-- The `Item` proxy: an immutable wrapper over a `SerializedItem` from
the cached snapshot. -/
structure Item where
  data : SerializedItem
deriving DecidableEq, Repr

/-- `Item.id()`. -/
def Item.id (it : Item) : Nat := it.data.id

/-- `Item.list_id()`. -/
def Item.list_id (it : Item) : Nat := it.data.listId

/-- `Item.description()`. -/
def Item.description (it : Item) : String := it.data.description

/-- `Item.is_completed()`. -/
def Item.is_completed (it : Item) : Bool := it.data.isCompleted

/-- `Item.created_at()`. -/
def Item.created_at (it : Item) : Nat := it.data.createdAt

/-- `Item.free()`: a no-op for proxy items. -/
def Item.free (_ : Item) : Unit := ()

/-- The controller-side `TodoList` proxy: a handle plus the cached
last-known snapshot. -/
structure TodoList where
  handle : Nat
  snapshot : SerializedTodoList
deriving DecidableEq, Repr

/-- `TodoList.id()`: synchronous, served from the cached snapshot. -/
def TodoList.id (l : TodoList) : Nat := l.snapshot.id

/-- `TodoList.title()`: synchronous, served from the cached snapshot. -/
def TodoList.title (l : TodoList) : String := l.snapshot.title

/-- `TodoList.set_title(title)` (`proxy.ts` 405-407): synchronously
assigns `this.snapshot.title = title` — a field of the cached snapshot —
with no worker round trip (its signature takes no worker response). -/
def TodoList.set_title (l : TodoList) (title : String) : TodoList :=
  { l with snapshot := { l.snapshot with title := title } }

/-- `TodoList.created_at()`: synchronous, from the cached snapshot. -/
def TodoList.created_at (l : TodoList) : Nat := l.snapshot.createdAt

/-- `TodoList.item_ids()`: `new Uint32Array(this.snapshot.itemIds)` — a
fresh copy whose elements are coerced to unsigned 32-bit values. -/
def TodoList.item_ids (l : TodoList) : List Nat :=
  l.snapshot.itemIds.map (fun n => n % 4294967296)

/-- `TodoList.item(item_id)`: look the child up in the cached snapshot's
`items` record; `undefined` when absent. -/
def TodoList.item (l : TodoList) (item_id : Nat) : Option Item :=
  (assocGet l.snapshot.items item_id).map Item.mk

/-- The `this.snapshot = snapshot` cache update every asynchronous
mutator (`save`, `add_item`, `remove_item`, `set_item_description`,
`set_item_completed`) performs with the snapshot carried in its success
`Response`: wholesale replacement. -/
def TodoList.replaceSnapshot (l : TodoList) (snapshot : SerializedTodoList) : TodoList :=
  { l with snapshot := snapshot }

/-- `TodoList.free()` (`proxy.ts` 387-393): send the `TodoList.free`
request and return `undefined` immediately; the eventual worker response
is only consumed by a `.catch` that logs. Modelled as a function of the
(eventual) decoded outcome, returning the unchanged proxy, the `Unit`
return value, and the console-error log entries produced. -/
def TodoList.free (l : TodoList) (outcome : Except DecodedError Unit) :
    TodoList × Unit × List String :=
  (l, (),
    match outcome with
    | .ok _ => []
    | .error e => ["[PROXY] Error freeing TodoList: " ++ e.message])

end Proxy

/-! ## Concrete fixtures for witnesses and counterexamples -/

/-- A wasm `TodoList` instance with no items and trivially succeeding
getters. -/
def emptyWList : WTodoList :=
  { id := .ok 0, title := .ok "", created_at := .ok 0, item_ids := .ok []
    item := fun _ => none }

/-- A trivially succeeding native module over a unit `Database` type,
used to evaluate the dispatcher at concrete inputs. -/
def trivNative : Native Unit where
  wasmInit _ := .ok ()
  connect _ := .ok ()
  decryptDatabase _ _ := .ok ()
  isEncrypted _ := .ok false
  setKey _ _ := .ok ()
  dbName _ := .ok ""
  dbExport _ := .ok []
  dbDelete _ := .ok ()
  applySchema _ := .ok ()
  listAll _ := .ok []
  todoNew _ _ := .ok emptyWList
  todoLoad _ _ := .ok emptyWList
  todoDelete _ _ := .ok true
  save l _ := .ok l
  addItem l _ _ := .ok (0, l)
  removeItem l _ _ := .ok (true, l)
  setItemDescription l _ _ := .ok (none, l)
  setItemCompleted l _ _ := .ok (none, l)
  freeList _ := .ok ()

/-- An uninitialized worker state with empty tables. -/
def uninitState : WorkerState Unit :=
  { initialized := false, dbH := HandleManager.fresh, listH := HandleManager.fresh }

/-- An initialized worker state with empty tables. -/
def initState : WorkerState Unit :=
  { initialized := true, dbH := HandleManager.fresh, listH := HandleManager.fresh }

/-- A fully readable wasm item (id 1). -/
def goodWItem : WItem :=
  { id := .ok 1, list_id := .ok 7, description := .ok "buy milk"
    is_completed := .ok false, created_at := .ok 50 }

/-- A wasm item (id 9) whose `description()` getter throws. -/
def badWItem : WItem :=
  { id := .ok 9, list_id := .ok 7, description := .error (ErrVal.error "boom" none none)
    is_completed := .ok false, created_at := .ok 60 }

/-- A wasm list whose single child's `description()` getter throws. -/
def badList : WTodoList :=
  { id := .ok 7, title := .ok "groceries", created_at := .ok 100, item_ids := .ok [9]
    item := fun i => if i = 9 then some badWItem else none }

/-- A wasm list with a readable child (1) followed by a child (9) whose
field read throws. -/
def mixedList : WTodoList :=
  { id := .ok 7, title := .ok "groceries", created_at := .ok 100, item_ids := .ok [1, 9]
    item := fun i => if i = 1 then some goodWItem else if i = 9 then some badWItem else none }

/-- A wasm list with a single readable child. -/
def demoWList : WTodoList :=
  { id := .ok 7, title := .ok "groceries", created_at := .ok 100, item_ids := .ok [1]
    item := fun i => if i = 1 then some goodWItem else none }

/-- A cached snapshot for proxy-side fixtures. -/
def demoSnap : SerializedTodoList :=
  { id := 7, title := "groceries", createdAt := 100, itemIds := [1]
    items := [(1, { id := 1, listId := 7, description := "buy milk"
                    isCompleted := false, createdAt := 50 })] }

/-- All instances currently stored in a table are truthy. -/
def valsTruthy {T : Type} (tr : T → Bool) (m : HandleManager T) : Prop :=
  ∀ k v, assocGet m.instances k = some v → tr v = true

/-- All instances passed to `create` in a call sequence are truthy. -/
def opsTruthy {T : Type} (tr : T → Bool) (ops : List (HMOp T)) : Prop :=
  ∀ x, HMOp.create x ∈ ops → tr x = true

/-! ## Theorems -/

theorem assocGet_recordSet {A : Type} (l : List (Nat × A)) (k : Nat) (v : A) (j : Nat) :
    assocGet (recordSet l k v) j = if j = k then some v else assocGet l j := by
  induction l with
  | nil =>
    by_cases h : j = k
    · subst h; simp [recordSet, assocGet]
    · have h' : ¬ k = j := fun hh => h hh.symm
      simp [recordSet, assocGet, h, h']
  | cons p rest ih =>
    obtain ⟨k', v'⟩ := p
    by_cases hk : k' = k
    · subst hk
      by_cases hj : j = k'
      · subst hj; simp [recordSet, assocGet]
      · have h' : ¬ k' = j := fun hh => hj hh.symm
        simp [recordSet, assocGet, hj, h']
    · by_cases hj : k' = j
      · subst hj
        simp [recordSet, assocGet, hk]
      · simp [recordSet, assocGet, hk, hj, ih]

theorem assocGet_assocDelete {A : Type} (l : List (Nat × A)) (k j : Nat) :
    assocGet (assocDelete l k) j = if j = k then none else assocGet l j := by
  induction l with
  | nil =>
    by_cases h : j = k <;> simp [assocDelete, assocGet, h]
  | cons p rest ih =>
    obtain ⟨k', v'⟩ := p
    by_cases hk : k' = k
    · subst hk
      by_cases hj : j = k'
      · subst hj
        simp [assocDelete, List.filter] at ih ⊢
        simp [ih]
      · have h' : ¬ k' = j := fun hh => hj hh.symm
        simp [assocDelete, List.filter, assocGet, h', hj] at ih ⊢
        exact ih
    · by_cases hj : k' = j
      · subst hj
        simp [assocDelete, List.filter, assocGet, hk]
      · simp [assocDelete, List.filter, assocGet, hk, hj] at ih ⊢
        exact ih

theorem HMinv_fresh {T : Type} : HMinv (HandleManager.fresh (T := T)) := by
  intro k v h
  simp [HandleManager.fresh, assocGet] at h

theorem HMinv_applyOp {T : Type} (m : HandleManager T) (op : HMOp T)
    (hm : HMinv m) : HMinv (applyOp m op) := by
  cases op with
  | create x =>
    intro k v h
    simp only [applyOp, HandleManager.create, assocGet_recordSet] at h ⊢
    by_cases hk : k = m.nextHandle
    · subst hk; omega
    · simp [hk] at h
      exact Nat.lt_succ_of_lt (hm k v h)
  | delete hdl =>
    intro k v h
    simp only [applyOp, HandleManager.delete, assocGet_assocDelete] at h ⊢
    by_cases hk : k = hdl
    · simp [hk] at h
    · simp [hk] at h
      exact hm k v h

theorem HMinv_runOps {T : Type} (m : HandleManager T) (ops : List (HMOp T))
    (hm : HMinv m) : HMinv (runOps m ops) := by
  induction ops generalizing m with
  | nil => exact hm
  | cons op rest ih => exact ih (applyOp m op) (HMinv_applyOp m op hm)

theorem createdHandles_eq_range' {T : Type} (m : HandleManager T) (ops : List (HMOp T)) :
    createdHandles m ops = List.range' m.nextHandle (countCreates ops) := by
  induction ops generalizing m with
  | nil => simp [createdHandles, countCreates]
  | cons op rest ih =>
    cases op with
    | create x =>
      simp [createdHandles, countCreates, HandleManager.create, ih, List.range'_succ]
    | delete h =>
      simp [createdHandles, countCreates, HandleManager.delete, ih]

theorem pairwise_lt_range'_one (s n : Nat) :
    (List.range' s n).Pairwise (· < ·) := by
  induction n generalizing s with
  | zero => simp
  | succ n ih =>
    rw [List.range'_succ]
    refine List.Pairwise.cons ?_ (ih (s + 1))
    intro b hb
    have := List.mem_range'_1.mp hb
    omega

theorem valsTruthy_applyOp {T : Type} (tr : T → Bool) (m : HandleManager T) (op : HMOp T)
    (hm : valsTruthy tr m) (hop : ∀ x, op = .create x → tr x = true) :
    valsTruthy tr (applyOp m op) := by
  cases op with
  | create x =>
    intro k v h
    simp only [applyOp, HandleManager.create, assocGet_recordSet] at h
    by_cases hk : k = m.nextHandle
    · simp [hk] at h
      subst h
      exact hop x rfl
    · simp [hk] at h
      exact hm k v h
  | delete hdl =>
    intro k v h
    simp only [applyOp, HandleManager.delete, assocGet_assocDelete] at h
    by_cases hk : k = hdl
    · simp [hk] at h
    · simp [hk] at h
      exact hm k v h

theorem valsTruthy_runOps {T : Type} (tr : T → Bool) (m : HandleManager T)
    (ops : List (HMOp T)) (hm : valsTruthy tr m) (hops : opsTruthy tr ops) :
    valsTruthy tr (runOps m ops) := by
  induction ops generalizing m with
  | nil => exact hm
  | cons op rest ih =>
    refine ih (applyOp m op) (valsTruthy_applyOp tr m op hm ?_) ?_
    · intro x hx
      exact hops x (by rw [hx]; exact List.mem_cons_self _ _)
    · intro x hx
      exact hops x (List.mem_cons_of_mem _ hx)

/-- C7: over any sequence of `create`/`delete` calls starting from a fresh
table, the handles returned by `create` are exactly `1, 2, 3, …` in call
order — strictly increasing and starting at 1 — and a further `create`
never returns a handle currently mapped to an instance. -/
theorem c7_create_handles_strictly_increasing {T : Type} (ops : List (HMOp T)) (x : T) :
    createdHandles (HandleManager.fresh (T := T)) ops = List.range' 1 (countCreates ops) ∧
    (createdHandles (HandleManager.fresh (T := T)) ops).Pairwise (· < ·) ∧
    assocGet (runOps (HandleManager.fresh (T := T)) ops).instances
      ((runOps (HandleManager.fresh (T := T)) ops).create x).1 = none := by
  have h1 : createdHandles (HandleManager.fresh (T := T)) ops
      = List.range' 1 (countCreates ops) := by
    have := createdHandles_eq_range' (HandleManager.fresh (T := T)) ops
    simpa [HandleManager.fresh] using this
  refine ⟨h1, ?_, ?_⟩
  · rw [h1]
    exact pairwise_lt_range'_one 1 _
  · have hinv := HMinv_runOps (HandleManager.fresh (T := T)) ops HMinv_fresh
    cases hg : assocGet (runOps (HandleManager.fresh (T := T)) ops).instances
        ((runOps (HandleManager.fresh (T := T)) ops).create x).1 with
    | none => rfl
    | some v =>
      have hlt := hinv _ _ hg
      simp only [HandleManager.create] at hlt
      exact absurd hlt (lt_irrefl _)

/-- C8: starting from a fresh table, over any call sequence whose created
instances are all truthy (as the repository's stored wasm objects are):
`get` returns the stored instance exactly when the handle is live, a
deleted handle's `get` throws the invalid-handle error, and `delete`
returns whether the handle existed at the time of the call. -/
theorem c8_get_iff_live {T : Type} (tr : T → Bool) (ops : List (HMOp T))
    (htr : opsTruthy tr ops) :
    (∀ h v, assocGet (runOps (HandleManager.fresh (T := T)) ops).instances h = some v →
      (runOps (HandleManager.fresh (T := T)) ops).get tr h = .ok v) ∧
    (∀ h, (runOps (HandleManager.fresh (T := T)) ops).has h = false →
      (runOps (HandleManager.fresh (T := T)) ops).get tr h = .error (invalidHandleErr h)) ∧
    (∀ h, (((runOps (HandleManager.fresh (T := T)) ops).delete h).2).get tr h
      = .error (invalidHandleErr h)) ∧
    (∀ h, ((runOps (HandleManager.fresh (T := T)) ops).delete h).1
      = (runOps (HandleManager.fresh (T := T)) ops).has h) := by
  have hv : valsTruthy tr (runOps (HandleManager.fresh (T := T)) ops) := by
    refine valsTruthy_runOps tr _ ops ?_ htr
    intro k v h
    simp [HandleManager.fresh, assocGet] at h
  refine ⟨?_, ?_, ?_, ?_⟩
  · intro h v hg
    simp [HandleManager.get, hg, hv h v hg]
  · intro h hh
    cases hg : assocGet (runOps (HandleManager.fresh (T := T)) ops).instances h with
    | none => simp [HandleManager.get, hg]
    | some v => simp [HandleManager.has, assocHas, hg] at hh
  · intro h
    simp [HandleManager.get, HandleManager.delete, assocGet_assocDelete]
  · intro h
    rfl

/-- Witness for C8 at the concrete call sequence create 5, create 7,
delete 1, with JavaScript number truthiness. -/
theorem c8_get_iff_live_witness :
    opsTruthy (fun n : Nat => decide (n ≠ 0)) [HMOp.create 5, HMOp.create 7, HMOp.delete 1] ∧
    (runOps (HandleManager.fresh (T := Nat)) [HMOp.create 5, HMOp.create 7, HMOp.delete 1]).get
      (fun n => decide (n ≠ 0)) 2 = .ok 7 := by
  have htr : opsTruthy (fun n : Nat => decide (n ≠ 0))
      [HMOp.create 5, HMOp.create 7, HMOp.delete 1] := by
    intro x hx
    simp [List.mem_cons] at hx
    rcases hx with h | h
    · subst h; rfl
    · subst h; rfl
  exact ⟨htr, (c8_get_iff_live _ _ htr).1 2 7 rfl⟩

/-- C10: when the instance stored under a handle is JavaScript-falsy,
`get` throws the invalid-handle error even though `has` reports the handle
as present; so resolve-succeeds-iff-live fails without a truthiness
precondition on stored instances. -/
theorem c10_falsy_stored_instance {T : Type} (tr : T → Bool) (m : HandleManager T)
    (h : Nat) (v : T) (hv : assocGet m.instances h = some v) (hf : tr v = false) :
    m.get tr h = .error (invalidHandleErr h) ∧
    m.has h = true ∧
    ¬ (isOkE (m.get tr h) = true ↔ m.has h = true) := by
  have hg : m.get tr h = .error (invalidHandleErr h) := by
    simp [HandleManager.get, hv, hf]
  refine ⟨hg, by simp [HandleManager.has, assocHas, hv], ?_⟩
  intro hiff
  have hok := hiff.mpr (by simp [HandleManager.has, assocHas, hv])
  rw [hg] at hok
  simp [isOkE] at hok

/-- Witness for C10: a table mapping handle 3 to the JS-falsy number 0. -/
theorem c10_falsy_stored_instance_witness :
    assocGet (HandleManager.mk 4 [(3, 0)] : HandleManager Nat).instances 3 = some 0 ∧
    (fun n : Nat => decide (n ≠ 0)) 0 = false ∧
    (HandleManager.mk 4 [(3, 0)] : HandleManager Nat).get (fun n => decide (n ≠ 0)) 3
      = .error (invalidHandleErr 3) ∧
    (HandleManager.mk 4 [(3, 0)] : HandleManager Nat).has 3 = true :=
  ⟨rfl, rfl,
    (c10_falsy_stored_instance (fun n => decide (n ≠ 0))
      (HandleManager.mk 4 [(3, 0)]) 3 0 rfl (by decide)).1,
    (c10_falsy_stored_instance (fun n => decide (n ≠ 0))
      (HandleManager.mk 4 [(3, 0)]) 3 0 rfl (by decide)).2.1⟩

theorem get_error_of_not_isOk {T : Type} (tr : T → Bool) (m : HandleManager T) (h : Nat)
    (hf : isOkE (m.get tr h) = false) : m.get tr h = .error (invalidHandleErr h) := by
  cases hg : assocGet m.instances h with
  | none => simp [HandleManager.get, hg]
  | some v =>
    by_cases htr : tr v = true
    · exfalso
      have hok : m.get tr h = .ok v := by simp [HandleManager.get, hg, htr]
      rw [hok] at hf
      simp [isOkE] at hf
    · have htr' : tr v = false := by revert htr; cases tr v <;> simp
      simp [HandleManager.get, hg, htr']

theorem get_ok_of_isOk {T : Type} (tr : T → Bool) (m : HandleManager T) (h : Nat)
    (ht : isOkE (m.get tr h) = true) : ∃ v, m.get tr h = .ok v := by
  cases hg : m.get tr h with
  | ok v => exact ⟨v, rfl⟩
  | error e =>
    rw [hg] at ht
    simp [isOkE] at ht

/-- C2 counterexample: on an uninitialized worker, a request whose
unrecognized type is "bogus" yields a failure `Response` whose error is
the unknown-message-type error, not the not-initialized one. -/
theorem c2_counterexample :
    (handleMessage trivNative "m1" uninitState (Req.unknown "bogus")).1.success = false ∧
    errMsg (handleMessage trivNative "m1" uninitState (Req.unknown "bogus")).1
      = some "Unknown message type: bogus" ∧
    errMsg (handleMessage trivNative "m1" uninitState (Req.unknown "bogus")).1
      ≠ some "WASM not initialized" := by
  refine ⟨rfl, by decide, by decide⟩

/-- C2 (amended): while the worker is uninitialized, every request other
than `init` yields a failure `Response`, leaves the state untouched, and
neither resolves a handle nor invokes a native operation; the failure is
the not-initialized error for every recognized type, and the
unknown-message-type error for an unrecognized type. -/
theorem c2_amended_not_initialized {DB : Type} (native : Native DB) (rid : String)
    (st : WorkerState DB) (req : Req) (_hwf : req.wellFormed)
    (hninit : st.initialized = false) (hty : req.type ≠ "init") :
    (handleMessage native rid st req).1.success = false ∧
    (handleMessage native rid st req).2.1 = st ∧
    (handleMessage native rid st req).2.2 = [] ∧
    (errMsg (handleMessage native rid st req).1 = some "WASM not initialized" ∨
      ∃ t, req = Req.unknown t ∧
        errMsg (handleMessage native rid st req).1 = some ("Unknown message type: " ++ t)) := by
  cases req
  case init p => exact absurd rfl hty
  case unknown t => exact ⟨rfl, rfl, rfl, Or.inr ⟨t, rfl, rfl⟩⟩
  all_goals
    refine ⟨?_, ?_, ?_, Or.inl ?_⟩ <;>
      simp [handleMessage, step, hninit, errResp, errMsg, serializeError, notInitErr,
        SerializedError.message]

/-- Witness for C2 (amended) at a concrete uninitialized state and the
recognized request type `Database.connect`. -/
theorem c2_amended_not_initialized_witness :
    uninitState.initialized = false ∧
    (handleMessage trivNative "m2" uninitState (Req.dbConnect "db")).1.success = false ∧
    (handleMessage trivNative "m2" uninitState (Req.dbConnect "db")).2.1 = uninitState ∧
    errMsg (handleMessage trivNative "m2" uninitState (Req.dbConnect "db")).1
      = some "WASM not initialized" := by
  have h := c2_amended_not_initialized trivNative "m2" uninitState (Req.dbConnect "db")
    trivial rfl (by decide)
  refine ⟨rfl, h.1, h.2.1, ?_⟩
  rcases h.2.2.2 with h' | ⟨t, ht, _⟩
  · exact h'
  · exact Req.noConfusion ht

/-- C3: when the worker is initialized and a request's payload references
a handle that does not resolve in its table, `handleMessage` returns a
failure `Response` carrying an invalid-handle error, the worker state is
unchanged, and the event trace contains no native-module invocation —
resolution always precedes the native call, so no partial mutation
occurs. -/
theorem c3_invalid_handle_no_native {DB : Type} (native : Native DB) (rid : String)
    (st : WorkerState DB) (req : Req) (hinit : st.initialized = true)
    (hbad : ∃ r ∈ req.refHandles, resolves st r = false) :
    (handleMessage native rid st req).1.success = false ∧
    (handleMessage native rid st req).2.1 = st ∧
    (∀ e ∈ (handleMessage native rid st req).2.2, e.isNative = false) ∧
    ∃ h : Nat, errMsg (handleMessage native rid st req).1
      = some ("Invalid handle: " ++ toString h) := by
  cases req
  case init p => simp [Req.refHandles] at hbad
  case dbConnect n => simp [Req.refHandles] at hbad
  case unknown t => simp [Req.refHandles] at hbad
  case dbDecrypt h p =>
    obtain ⟨r, hr, hres⟩ := hbad
    simp [Req.refHandles] at hr
    subst hr
    have he := get_error_of_not_isOk objTruthy st.dbH h (by simpa [resolves] using hres)
    refine ⟨?_, ?_, ?_, ⟨h, ?_⟩⟩ <;>
      simp [handleMessage, step, hinit, he, errResp, errMsg, serializeError, invalidHandleErr,
        SerializedError.message, Ev.isNative]
  case dbIsEncrypted h =>
    obtain ⟨r, hr, hres⟩ := hbad
    simp [Req.refHandles] at hr
    subst hr
    have he := get_error_of_not_isOk objTruthy st.dbH h (by simpa [resolves] using hres)
    refine ⟨?_, ?_, ?_, ⟨h, ?_⟩⟩ <;>
      simp [handleMessage, step, hinit, he, errResp, errMsg, serializeError, invalidHandleErr,
        SerializedError.message, Ev.isNative]
  case dbSetKey h p =>
    obtain ⟨r, hr, hres⟩ := hbad
    simp [Req.refHandles] at hr
    subst hr
    have he := get_error_of_not_isOk objTruthy st.dbH h (by simpa [resolves] using hres)
    refine ⟨?_, ?_, ?_, ⟨h, ?_⟩⟩ <;>
      simp [handleMessage, step, hinit, he, errResp, errMsg, serializeError, invalidHandleErr,
        SerializedError.message, Ev.isNative]
  case dbName h =>
    obtain ⟨r, hr, hres⟩ := hbad
    simp [Req.refHandles] at hr
    subst hr
    have he := get_error_of_not_isOk objTruthy st.dbH h (by simpa [resolves] using hres)
    refine ⟨?_, ?_, ?_, ⟨h, ?_⟩⟩ <;>
      simp [handleMessage, step, hinit, he, errResp, errMsg, serializeError, invalidHandleErr,
        SerializedError.message, Ev.isNative]
  case dbReadFile h =>
    obtain ⟨r, hr, hres⟩ := hbad
    simp [Req.refHandles] at hr
    subst hr
    have he := get_error_of_not_isOk objTruthy st.dbH h (by simpa [resolves] using hres)
    refine ⟨?_, ?_, ?_, ⟨h, ?_⟩⟩ <;>
      simp [handleMessage, step, hinit, he, errResp, errMsg, serializeError, invalidHandleErr,
        SerializedError.message, Ev.isNative]
  case dbDelete h =>
    obtain ⟨r, hr, hres⟩ := hbad
    simp [Req.refHandles] at hr
    subst hr
    have he := get_error_of_not_isOk objTruthy st.dbH h (by simpa [resolves] using hres)
    refine ⟨?_, ?_, ?_, ⟨h, ?_⟩⟩ <;>
      simp [handleMessage, step, hinit, he, errResp, errMsg, serializeError, invalidHandleErr,
        SerializedError.message, Ev.isNative]
  case applySchema h =>
    obtain ⟨r, hr, hres⟩ := hbad
    simp [Req.refHandles] at hr
    subst hr
    have he := get_error_of_not_isOk objTruthy st.dbH h (by simpa [resolves] using hres)
    refine ⟨?_, ?_, ?_, ⟨h, ?_⟩⟩ <;>
      simp [handleMessage, step, hinit, he, errResp, errMsg, serializeError, invalidHandleErr,
        SerializedError.message, Ev.isNative]
  case listAll h =>
    obtain ⟨r, hr, hres⟩ := hbad
    simp [Req.refHandles] at hr
    subst hr
    have he := get_error_of_not_isOk objTruthy st.dbH h (by simpa [resolves] using hres)
    refine ⟨?_, ?_, ?_, ⟨h, ?_⟩⟩ <;>
      simp [handleMessage, step, hinit, he, errResp, errMsg, serializeError, invalidHandleErr,
        SerializedError.message, Ev.isNative]
  case listNew h t =>
    obtain ⟨r, hr, hres⟩ := hbad
    simp [Req.refHandles] at hr
    subst hr
    have he := get_error_of_not_isOk objTruthy st.dbH h (by simpa [resolves] using hres)
    refine ⟨?_, ?_, ?_, ⟨h, ?_⟩⟩ <;>
      simp [handleMessage, step, hinit, he, errResp, errMsg, serializeError, invalidHandleErr,
        SerializedError.message, Ev.isNative]
  case listLoad h i =>
    obtain ⟨r, hr, hres⟩ := hbad
    simp [Req.refHandles] at hr
    subst hr
    have he := get_error_of_not_isOk objTruthy st.dbH h (by simpa [resolves] using hres)
    refine ⟨?_, ?_, ?_, ⟨h, ?_⟩⟩ <;>
      simp [handleMessage, step, hinit, he, errResp, errMsg, serializeError, invalidHandleErr,
        SerializedError.message, Ev.isNative]
  case listDelete h i =>
    obtain ⟨r, hr, hres⟩ := hbad
    simp [Req.refHandles] at hr
    subst hr
    have he := get_error_of_not_isOk objTruthy st.dbH h (by simpa [resolves] using hres)
    refine ⟨?_, ?_, ?_, ⟨h, ?_⟩⟩ <;>
      simp [handleMessage, step, hinit, he, errResp, errMsg, serializeError, invalidHandleErr,
        SerializedError.message, Ev.isNative]
  case setItemDescription h i d =>
    obtain ⟨r, hr, hres⟩ := hbad
    simp [Req.refHandles] at hr
    subst hr
    have he := get_error_of_not_isOk objTruthy st.listH h (by simpa [resolves] using hres)
    refine ⟨?_, ?_, ?_, ⟨h, ?_⟩⟩ <;>
      simp [handleMessage, step, hinit, he, errResp, errMsg, serializeError, invalidHandleErr,
        SerializedError.message, Ev.isNative]
  case setItemCompleted h i b =>
    obtain ⟨r, hr, hres⟩ := hbad
    simp [Req.refHandles] at hr
    subst hr
    have he := get_error_of_not_isOk objTruthy st.listH h (by simpa [resolves] using hres)
    refine ⟨?_, ?_, ?_, ⟨h, ?_⟩⟩ <;>
      simp [handleMessage, step, hinit, he, errResp, errMsg, serializeError, invalidHandleErr,
        SerializedError.message, Ev.isNative]
  case listFree h =>
    obtain ⟨r, hr, hres⟩ := hbad
    simp [Req.refHandles] at hr
    subst hr
    have he := get_error_of_not_isOk objTruthy st.listH h (by simpa [resolves] using hres)
    refine ⟨?_, ?_, ?_, ⟨h, ?_⟩⟩ <;>
      simp [handleMessage, step, hinit, he, errResp, errMsg, serializeError, invalidHandleErr,
        SerializedError.message, Ev.isNative]
  case listSave h dbh =>
    cases hl : isOkE (st.listH.get objTruthy h) with
    | false =>
      have he := get_error_of_not_isOk objTruthy st.listH h hl
      refine ⟨?_, ?_, ?_, ⟨h, ?_⟩⟩ <;>
        simp [handleMessage, step, hinit, he, errResp, errMsg, serializeError, invalidHandleErr,
          SerializedError.message, Ev.isNative]
    | true =>
      obtain ⟨list, hlist⟩ := get_ok_of_isOk objTruthy st.listH h hl
      have hdb : isOkE (st.dbH.get objTruthy dbh) = false := by
        obtain ⟨r, hr, hres⟩ := hbad
        simp [Req.refHandles] at hr
        rcases hr with hr | hr
        · subst hr
          rw [resolves] at hres
          rw [hres] at hl
          exact Bool.noConfusion hl
        · subst hr
          simpa [resolves] using hres
      have he := get_error_of_not_isOk objTruthy st.dbH dbh hdb
      refine ⟨?_, ?_, ?_, ⟨dbh, ?_⟩⟩ <;>
        simp [handleMessage, step, hinit, hlist, he, errResp, errMsg, serializeError,
          invalidHandleErr, SerializedError.message, Ev.isNative]
  case addItem h dbh d =>
    cases hl : isOkE (st.listH.get objTruthy h) with
    | false =>
      have he := get_error_of_not_isOk objTruthy st.listH h hl
      refine ⟨?_, ?_, ?_, ⟨h, ?_⟩⟩ <;>
        simp [handleMessage, step, hinit, he, errResp, errMsg, serializeError, invalidHandleErr,
          SerializedError.message, Ev.isNative]
    | true =>
      obtain ⟨list, hlist⟩ := get_ok_of_isOk objTruthy st.listH h hl
      have hdb : isOkE (st.dbH.get objTruthy dbh) = false := by
        obtain ⟨r, hr, hres⟩ := hbad
        simp [Req.refHandles] at hr
        rcases hr with hr | hr
        · subst hr
          rw [resolves] at hres
          rw [hres] at hl
          exact Bool.noConfusion hl
        · subst hr
          simpa [resolves] using hres
      have he := get_error_of_not_isOk objTruthy st.dbH dbh hdb
      refine ⟨?_, ?_, ?_, ⟨dbh, ?_⟩⟩ <;>
        simp [handleMessage, step, hinit, hlist, he, errResp, errMsg, serializeError,
          invalidHandleErr, SerializedError.message, Ev.isNative]
  case removeItem h dbh i =>
    cases hl : isOkE (st.listH.get objTruthy h) with
    | false =>
      have he := get_error_of_not_isOk objTruthy st.listH h hl
      refine ⟨?_, ?_, ?_, ⟨h, ?_⟩⟩ <;>
        simp [handleMessage, step, hinit, he, errResp, errMsg, serializeError, invalidHandleErr,
          SerializedError.message, Ev.isNative]
    | true =>
      obtain ⟨list, hlist⟩ := get_ok_of_isOk objTruthy st.listH h hl
      have hdb : isOkE (st.dbH.get objTruthy dbh) = false := by
        obtain ⟨r, hr, hres⟩ := hbad
        simp [Req.refHandles] at hr
        rcases hr with hr | hr
        · subst hr
          rw [resolves] at hres
          rw [hres] at hl
          exact Bool.noConfusion hl
        · subst hr
          simpa [resolves] using hres
      have he := get_error_of_not_isOk objTruthy st.dbH dbh hdb
      refine ⟨?_, ?_, ?_, ⟨dbh, ?_⟩⟩ <;>
        simp [handleMessage, step, hinit, hlist, he, errResp, errMsg, serializeError,
          invalidHandleErr, SerializedError.message, Ev.isNative]

/-- Witness for C3 at a concrete initialized state with empty tables and
a `TodoList.save` request referencing the absent handle 5. -/
theorem c3_invalid_handle_no_native_witness :
    initState.initialized = true ∧
    resolves initState (HTable.todoList, 5) = false ∧
    (handleMessage trivNative "m3" initState (Req.listSave 5 1)).1.success = false ∧
    (handleMessage trivNative "m3" initState (Req.listSave 5 1)).2.1 = initState ∧
    (∀ e ∈ (handleMessage trivNative "m3" initState (Req.listSave 5 1)).2.2,
      e.isNative = false) := by
  have h := c3_invalid_handle_no_native trivNative "m3" initState (Req.listSave 5 1) rfl
    ⟨(HTable.todoList, 5), by decide, rfl⟩
  exact ⟨rfl, rfl, h.1, h.2.1, h.2.2.1⟩

theorem itemsLoop_get_mono (item : Nat → Option WItem) (ids : List Nat)
    (acc : List (Nat × SerializedItem)) (freed : List Nat)
    (items : List (Nat × SerializedItem)) (fr : List Nat) (iid : Nat) (si : SerializedItem)
    (h : itemsLoop item ids acc freed = (.ok items, fr))
    (hacc : assocGet acc iid = some si)
    (hval : ∀ it, item iid = some it → readItem it = .ok si) :
    assocGet items iid = some si := by
  induction ids generalizing acc freed with
  | nil =>
    simp only [itemsLoop, Prod.mk.injEq] at h
    obtain ⟨h1, _⟩ := h
    injection h1 with h1
    rw [← h1]
    exact hacc
  | cons j rest ih =>
    cases hj : item j with
    | none =>
      simp only [itemsLoop, hj] at h
      exact ih acc freed h hacc
    | some jt =>
      cases hr : readItem jt with
      | error e =>
        simp only [itemsLoop, hj, hr] at h
        simp at h
      | ok s =>
        simp only [itemsLoop, hj, hr] at h
        refine ih (recordSet acc j s) (freed ++ [j]) h ?_
        by_cases hji : iid = j
        · subst hji
          have hsi := hval jt hj
          rw [hr] at hsi
          injection hsi with hsi
          rw [assocGet_recordSet]
          simp [hsi]
        · rw [assocGet_recordSet]
          simp [hji, hacc]

theorem itemsLoop_mem_ok (item : Nat → Option WItem) (ids : List Nat)
    (acc : List (Nat × SerializedItem)) (freed : List Nat)
    (items : List (Nat × SerializedItem)) (fr : List Nat)
    (h : itemsLoop item ids acc freed = (.ok items, fr)) :
    ∀ iid ∈ ids, ∀ it, item iid = some it →
      ∃ si, readItem it = .ok si ∧ assocGet items iid = some si := by
  induction ids generalizing acc freed with
  | nil =>
    intro iid hmem
    simp at hmem
  | cons j rest ih =>
    intro iid hmem it hit
    cases hj : item j with
    | none =>
      simp only [itemsLoop, hj] at h
      rcases List.mem_cons.mp hmem with hq | hq
      · subst hq
        rw [hj] at hit
        exact Option.noConfusion hit
      · exact ih _ _ h iid hq it hit
    | some jt =>
      cases hr : readItem jt with
      | error e =>
        simp only [itemsLoop, hj, hr] at h
        simp at h
      | ok s =>
        simp only [itemsLoop, hj, hr] at h
        rcases List.mem_cons.mp hmem with hq | hq
        · subst hq
          rw [hj] at hit
          injection hit with hit'
          subst hit'
          refine ⟨s, hr, ?_⟩
          refine itemsLoop_get_mono item rest _ _ items fr iid s h ?_ ?_
          · rw [assocGet_recordSet]
            simp
          · intro it' hit'
            rw [hj] at hit'
            injection hit' with e'
            subst e'
            exact hr
        · exact ih _ _ h iid hq it hit

theorem readItem_ok_fields (it : WItem) (si : SerializedItem) (h : readItem it = .ok si) :
    it.id = .ok si.id ∧ it.list_id = .ok si.listId ∧ it.description = .ok si.description ∧
    it.is_completed = .ok si.isCompleted ∧ it.created_at = .ok si.createdAt := by
  simp only [readItem] at h
  cases hi : it.id with
  | error e => rw [hi] at h; simp at h
  | ok iv =>
  rw [hi] at h
  cases hli : it.list_id with
  | error e => rw [hli] at h; simp at h
  | ok liv =>
  rw [hli] at h
  cases hd : it.description with
  | error e => rw [hd] at h; simp at h
  | ok dv =>
  rw [hd] at h
  cases hc : it.is_completed with
  | error e => rw [hc] at h; simp at h
  | ok cv =>
  rw [hc] at h
  cases hca : it.created_at with
  | error e => rw [hca] at h; simp at h
  | ok cav =>
  rw [hca] at h
  injection h with h
  rw [← h]
  exact ⟨rfl, rfl, rfl, rfl, rfl⟩

/-- C6: a successful `serializeTodoList` snapshot, read back through the
controller-side proxy accessors, reproduces every scalar field and every
present child's fields with identical values, and preserves the
worker-side `itemIds` ordering exactly (`item_ids()` copies it through a
`Uint32Array`, the identity on its unsigned 32-bit elements). -/
theorem c6_snapshot_roundtrip (l : WTodoList) (hdl : Nat) (snap : SerializedTodoList)
    (freed : List Nat) (h : serializeTodoList l = (.ok snap, freed)) :
    l.id = .ok (Proxy.TodoList.id ⟨hdl, snap⟩) ∧
    l.title = .ok (Proxy.TodoList.title ⟨hdl, snap⟩) ∧
    l.created_at = .ok (Proxy.TodoList.created_at ⟨hdl, snap⟩) ∧
    l.item_ids = .ok snap.itemIds ∧
    ((∀ i ∈ snap.itemIds, i < 4294967296) →
      Proxy.TodoList.item_ids ⟨hdl, snap⟩ = snap.itemIds) ∧
    (∀ iid ∈ snap.itemIds, ∀ it, l.item iid = some it →
      ∃ jt : Proxy.Item, Proxy.TodoList.item ⟨hdl, snap⟩ iid = some jt ∧
        it.id = .ok jt.id ∧ it.list_id = .ok jt.list_id ∧
        it.description = .ok jt.description ∧
        it.is_completed = .ok jt.is_completed ∧
        it.created_at = .ok jt.created_at) := by
  cases hid : l.id with
  | error e => simp only [serializeTodoList, hid] at h; simp at h
  | ok idv =>
  cases htitle : l.title with
  | error e => simp only [serializeTodoList, hid, htitle] at h; simp at h
  | ok titlev =>
  cases hca : l.created_at with
  | error e => simp only [serializeTodoList, hid, htitle, hca] at h; simp at h
  | ok cav =>
  cases hids : l.item_ids with
  | error e => simp only [serializeTodoList, hid, htitle, hca, hids] at h; simp at h
  | ok ids =>
  simp only [serializeTodoList, hid, htitle, hca, hids] at h
  cases hloop : itemsLoop l.item ids [] [] with
  | mk r fr =>
  rw [hloop] at h
  cases r with
  | error e => simp at h
  | ok items =>
  simp only [Prod.mk.injEq] at h
  obtain ⟨h1, h2⟩ := h
  injection h1 with h1
  subst h1
  subst h2
  refine ⟨rfl, rfl, rfl, rfl, ?_, ?_⟩
  · intro hbound
    simp only [Proxy.TodoList.item_ids]
    have : ∀ i ∈ ids, i % 4294967296 = i := by
      intro i hi
      exact Nat.mod_eq_of_lt (hbound i hi)
    calc ids.map (fun n => n % 4294967296) = ids.map id := List.map_congr_left this
      _ = ids := List.map_id ids
  · intro iid hmem it hit
    obtain ⟨si, hsi, hget⟩ := itemsLoop_mem_ok l.item ids [] [] items fr hloop iid hmem it hit
    obtain ⟨f1, f2, f3, f4, f5⟩ := readItem_ok_fields it si hsi
    refine ⟨Proxy.Item.mk si, ?_, f1, f2, f3, f4, f5⟩
    simp [Proxy.TodoList.item, hget]

/-- Witness for C6 at a concrete one-item worker list. -/
theorem c6_snapshot_roundtrip_witness :
    serializeTodoList demoWList = (Except.ok demoSnap, [1]) ∧
    Proxy.TodoList.item_ids ⟨2, demoSnap⟩ = demoSnap.itemIds ∧
    ∃ jt : Proxy.Item, Proxy.TodoList.item ⟨2, demoSnap⟩ 1 = some jt ∧
      goodWItem.description = .ok jt.description := by
  have h := c6_snapshot_roundtrip demoWList 2 demoSnap [1] rfl
  refine ⟨rfl, h.2.2.2.2.1 (by decide), ?_⟩
  obtain ⟨jt, h1, _, _, h4, _, _⟩ := h.2.2.2.2.2 1 (by decide) goodWItem rfl
  exact ⟨jt, h1, h4⟩

/-- C4 counterexample: `badList`'s only child (item id 9) is obtained for
reading, but since its `description()` getter throws and there is no
`try`/`finally`, serialization fails with no child ever freed — the freed
list is empty, refuting release-independent-of-success. -/
theorem c4_counterexample :
    (badList.item 9).isSome = true ∧
    (serializeTodoList badList).1 = .error (ErrVal.error "boom" none none) ∧
    (serializeTodoList badList).2 = [] :=
  ⟨rfl, rfl, rfl⟩

theorem itemsLoop_freed_mono (item : Nat → Option WItem) (ids : List Nat)
    (acc : List (Nat × SerializedItem)) (freed : List Nat) (x : Nat) (hx : x ∈ freed) :
    x ∈ (itemsLoop item ids acc freed).2 := by
  induction ids generalizing acc freed with
  | nil => simpa [itemsLoop] using hx
  | cons j rest ih =>
    cases hj : item j with
    | none =>
      simp only [itemsLoop, hj]
      exact ih acc freed hx
    | some jt =>
      cases hr : readItem jt with
      | error e =>
        simp only [itemsLoop, hj, hr]
        exact hx
      | ok s =>
        simp only [itemsLoop, hj, hr]
        exact ih _ _ (List.mem_append_left _ hx)

theorem itemsLoop_cons_none (item : Nat → Option WItem) (j : Nat) (rest : List Nat)
    (acc : List (Nat × SerializedItem)) (freed : List Nat) (hj : item j = none) :
    itemsLoop item (j :: rest) acc freed = itemsLoop item rest acc freed := by
  simp only [itemsLoop, hj]

theorem itemsLoop_cons_some_ok (item : Nat → Option WItem) (j : Nat) (rest : List Nat)
    (acc : List (Nat × SerializedItem)) (freed : List Nat) (jt : WItem) (s : SerializedItem)
    (hj : item j = some jt) (hs : readItem jt = .ok s) :
    itemsLoop item (j :: rest) acc freed
      = itemsLoop item rest (recordSet acc j s) (freed ++ [j]) := by
  simp only [itemsLoop, hj, hs]

theorem itemsLoop_reaches_freed (item : Nat → Option WItem) (pre : List Nat)
    (post : List Nat) (acc : List (Nat × SerializedItem)) (freed : List Nat)
    (iid : Nat) (it : WItem) (si : SerializedItem)
    (hpre : ∀ j ∈ pre, childOk item j)
    (hit : item iid = some it) (hread : readItem it = .ok si) :
    iid ∈ (itemsLoop item (pre ++ iid :: post) acc freed).2 := by
  induction pre generalizing acc freed with
  | nil =>
    simp only [List.nil_append, itemsLoop, hit, hread]
    exact itemsLoop_freed_mono item post _ _ iid (by simp)
  | cons j pre' ih =>
    rw [List.cons_append]
    cases hj : item j with
    | none =>
      rw [itemsLoop_cons_none item j _ acc freed hj]
      exact ih acc freed (fun q hq => hpre q (List.mem_cons_of_mem _ hq))
    | some jt =>
      obtain ⟨s, hs⟩ := hpre j (List.mem_cons_self _ _) jt hj
      rw [itemsLoop_cons_some_ok item j _ acc freed jt s hj hs]
      exact ih (recordSet acc j s) (freed ++ [j]) (fun q hq => hpre q (List.mem_cons_of_mem _ hq))

/-- C4 (amended): a child item whose fields are all copied successfully is
freed immediately — and remains freed regardless of whether the rest of
serialization succeeds — but a child whose own field read throws is not
freed (there is no `try`/`finally`), aborting the loop. -/
theorem c4_amended_freed_after_copy (l : WTodoList) (ids pre post : List Nat) (iid : Nat)
    (it : WItem) (si : SerializedItem) (idv : Nat) (titlev : String) (cav : Nat)
    (hid : l.id = .ok idv) (htitle : l.title = .ok titlev) (hca : l.created_at = .ok cav)
    (hids : l.item_ids = .ok ids) (hsplit : ids = pre ++ iid :: post)
    (hpre : ∀ j ∈ pre, childOk l.item j)
    (hit : l.item iid = some it) (hread : readItem it = .ok si) :
    iid ∈ (serializeTodoList l).2 := by
  have hfreed : (serializeTodoList l).2 = (itemsLoop l.item ids [] []).2 := by
    simp only [serializeTodoList, hid, htitle, hca, hids]
    cases hloop : itemsLoop l.item ids [] [] with
    | mk r fr => cases r <;> simp
  rw [hfreed, hsplit]
  exact itemsLoop_reaches_freed l.item pre post [] [] iid it si hpre hit hread

/-- Witness for C4 (amended): in `mixedList`, child 1 is fully copied and
freed even though serialization as a whole then fails on child 9. -/
theorem c4_amended_freed_after_copy_witness :
    isOkE (serializeTodoList mixedList).1 = false ∧
    1 ∈ (serializeTodoList mixedList).2 := by
  refine ⟨rfl, ?_⟩
  exact c4_amended_freed_after_copy mixedList [1, 9] [] [9] 1 goodWItem
    { id := 1, listId := 7, description := "buy milk", isCompleted := false, createdAt := 50 }
    7 "groceries" 100 rfl rfl rfl rfl rfl
    (by intro j hj; simp at hj) rfl rfl

/-- C5: an `Error` whose cause chain comprises three errors (with truthy,
i.e. nonempty, messages) serializes into exactly three chain nodes in
outermost-first order; decoding that chain on the controller side yields a
rejection whose `errorChain` has exactly those three entries in the same
order and whose `message` is the first node's message. -/
theorem c5_error_chain_roundtrip (m1 m2 m3 : String) (s1 s2 s3 : Option String)
    (h1 : m1 ≠ "") (h2 : m2 ≠ "") (h3 : m3 ≠ "") :
    (serializeError (.error m1 s1 (some (.error m2 s2 (some (.error m3 s3 none)))))).nodes
      = [m1, m2, m3] ∧
    (decodeFailure (some (serializeError (.error m1 s1 (some (.error m2 s2
      (some (.error m3 s3 none)))))))).errorChain = [m1, m2, m3] ∧
    (decodeFailure (some (serializeError (.error m1 s1 (some (.error m2 s2
      (some (.error m3 s3 none)))))))).message = m1 := by
  refine ⟨?_, ?_, ?_⟩ <;>
    simp [serializeError, ErrVal.truthy, SerializedError.nodes, decodeFailure,
      buildErrorChain, causeLoop, SerializedError.message, SerializedError.cause, h1, h2, h3]

/-- Witness for C5 at the concrete three-node chain a → b → c. -/
theorem c5_error_chain_roundtrip_witness :
    (serializeError (.error "a" none (some (.error "b" none
      (some (.error "c" none none)))))).nodes = ["a", "b", "c"] ∧
    (decodeFailure (some (serializeError (.error "a" none (some (.error "b" none
      (some (.error "c" none none)))))))).errorChain = ["a", "b", "c"] := by
  have h := c5_error_chain_roundtrip "a" "b" "c" none none none
    (by decide) (by decide) (by decide)
  exact ⟨h.1, h.2.1⟩

/-- C1 evidence (code bug): `TodoList.set_title` synchronously assigns the
`title` field of the currently cached snapshot object — an in-place field
mutation with no round trip (its signature consumes no worker `Response`,
and no `TodoList.set_title` request type even exists in the protocol) —
instead of replacing the snapshot wholesale with one from a `Response`. -/
theorem c1_set_title_mutates_cached_snapshot :
    (Proxy.TodoList.set_title ⟨3, demoSnap⟩ "new title").snapshot
      = { demoSnap with title := "new title" } ∧
    (Proxy.TodoList.set_title ⟨3, demoSnap⟩ "new title").snapshot ≠ demoSnap ∧
    (Proxy.TodoList.set_title ⟨3, demoSnap⟩ "new title").handle = 3 :=
  ⟨rfl, by decide, rfl⟩

/-- C9: the proxy's `free()` is fire-and-forget — it returns `undefined`
and the unchanged proxy regardless of the worker's eventual outcome, and a
worker-side failure is only appended to the console log, never surfaced to
the caller. -/
theorem c9_free_fire_and_forget (l : Proxy.TodoList) (outcome : Except DecodedError Unit) :
    (Proxy.TodoList.free l outcome).1 = l ∧
    (Proxy.TodoList.free l outcome).2.1 = () ∧
    (∀ e, outcome = .error e →
      (Proxy.TodoList.free l outcome).2.2
        = ["[PROXY] Error freeing TodoList: " ++ e.message]) ∧
    (∀ u, outcome = .ok u → (Proxy.TodoList.free l outcome).2.2 = []) := by
  refine ⟨rfl, rfl, ?_, ?_⟩
  · intro e he
    subst he
    rfl
  · intro u hu
    subst hu
    rfl

/-- Witness for C9 at a concrete proxy and a failing worker outcome. -/
theorem c9_free_fire_and_forget_witness :
    (Proxy.TodoList.free ⟨3, demoSnap⟩ (.error ⟨"boom", ["boom"], none⟩)).1
      = (⟨3, demoSnap⟩ : Proxy.TodoList) ∧
    (Proxy.TodoList.free ⟨3, demoSnap⟩ (.error ⟨"boom", ["boom"], none⟩)).2.2
      = ["[PROXY] Error freeing TodoList: boom"] := by
  have h := c9_free_fire_and_forget ⟨3, demoSnap⟩ (.error ⟨"boom", ["boom"], none⟩)
  refine ⟨h.1, ?_⟩
  rw [h.2.2.1 ⟨"boom", ["boom"], none⟩ rfl]
  decide

end RusqliteSpa
